import Mathlib

/-!
Verification of the ToolHive MCP launcher (`bin/toolhive-mcp.js`, given here as
`src/unnamed/part_000`, and `src/bin/setup.js`).

The launcher is Node.js code that spawns subprocesses.  We embed it shallowly:
the outcome of each subprocess spawn is supplied by an abstract environment
(a function from command and arguments to a `SpawnOutcome`), and each source
function becomes a pure Lean function of that environment.  Observable actions
that the claims talk about (which install strategies were attempted, whether
the venv-creation process was spawned, what was printed) are returned as
explicit trace fields alongside the source function's result value.
-/

/-- Outcome of spawning a subprocess, as observed by the launcher's event
handlers: either the `close` event fires with an exit code (and the text the
parent accumulated from the child's stderr pipe), or the `error` event fires
with an error message (e.g. the executable was not found). -/
inductive SpawnOutcome where
  | exited (code : Int) (stderr : String)
  | spawnError (message : String)
deriving DecidableEq, Repr

/-- The directory the package is installed in (`path.dirname(__dirname)` in the
source).  Its concrete value never matters to the claims; we fix a placeholder. -/
def packageDir : String := "/pkg"

/-- `path.join` restricted to the two-argument uses in the source. -/
def pathJoin (a b : String) : String := a ++ "/" ++ b

/-! ## checkPython (part_000 lines 32-62) -/

/-- A version probe succeeds exactly when the spawned `cmd --version` closes
with exit code 0; a non-zero close or a spawn error advances to the next
candidate (lines 46-57). -/
def versionCheckOk : SpawnOutcome → Bool
  | .exited 0 _ => true
  | .exited _ _ => false
  | .spawnError _ => false

/-- The recursive `checkNext` helper of `checkPython` (lines 37-58): walk the
candidate list, resolving to the first command whose version probe succeeds,
and to `none` when the list is exhausted.  `probe cmd` is the outcome of
spawning `cmd --version`. -/
def checkNext (probe : String → SpawnOutcome) : List String → Option String
  | [] => none
  | cmd :: rest =>
    if versionCheckOk (probe cmd) then some cmd else checkNext probe rest

/-- `checkNext` instrumented with the list of candidates actually probed, in
order.  The first component agrees with `checkNext`. -/
def checkNextTraced (probe : String → SpawnOutcome) :
    List String → Option String × List String
  | [] => (none, [])
  | cmd :: rest =>
    if versionCheckOk (probe cmd) then (some cmd, [cmd])
    else
      let r := checkNextTraced probe rest
      (r.1, cmd :: r.2)

/-- The fixed candidate list of `checkPython` (line 34). -/
def pythonCommands : List String := ["python3", "python"]

/-- `checkPython` (lines 32-62): probe the fixed candidate list. -/
def checkPython (probe : String → SpawnOutcome) : Option String :=
  checkNext probe pythonCommands

theorem checkNextTraced_fst (probe : String → SpawnOutcome) :
    ∀ cmds : List String, (checkNextTraced probe cmds).1 = checkNext probe cmds := by
  intro cmds
  induction cmds with
  | nil => rfl
  | cons cmd rest ih =>
    simp only [checkNextTraced, checkNext]
    split
    · rfl
    · exact ih

theorem checkNext_eq_find (probe : String → SpawnOutcome) :
    ∀ cmds : List String,
      checkNext probe cmds = cmds.find? (fun c => versionCheckOk (probe c)) := by
  intro cmds
  induction cmds with
  | nil => rfl
  | cons cmd rest ih =>
    simp only [checkNext, List.find?]
    by_cases h : versionCheckOk (probe cmd) = true
    · simp [h]
    · simp only [Bool.not_eq_true] at h
      simp [h, ih]

theorem checkNextTraced_stops_at_first (probe : String → SpawnOutcome) :
    ∀ (pre : List String) (c : String) (post : List String),
      (∀ x ∈ pre, versionCheckOk (probe x) = false) →
      versionCheckOk (probe c) = true →
      checkNextTraced probe (pre ++ c :: post) = (some c, pre ++ [c]) := by
  intro pre
  induction pre with
  | nil =>
    intro c post _ hc
    simp [checkNextTraced, hc]
  | cons x xs ih =>
    intro c post hpre hc
    have hx : versionCheckOk (probe x) = false := hpre x (by simp)
    have hxs : ∀ y ∈ xs, versionCheckOk (probe y) = false := by
      intro y hy; exact hpre y (by simp [hy])
    simp [checkNextTraced, hx, ih c post hxs hc]

/-- C3: `checkPython` resolves to the first candidate in order whose
version-check subcommand exits zero, resolves to `none` when no candidate
succeeds, and never probes a candidate that comes after a success: when the
candidate list splits as `pre ++ c :: post` with every probe in `pre` failing
and the probe of `c` succeeding, the resolved value is `c` and the set of
probed candidates is exactly `pre ++ [c]` — nothing in `post` is ever probed.
The fixed candidate list of the source is `pythonCommands`. -/
theorem checkPython_first_success :
    (∀ probe : String → SpawnOutcome,
        checkPython probe = pythonCommands.find? (fun c => versionCheckOk (probe c))) ∧
    (∀ (probe : String → SpawnOutcome) (cmds : List String),
        (∀ c ∈ cmds, versionCheckOk (probe c) = false) → checkNext probe cmds = none) ∧
    (∀ (probe : String → SpawnOutcome) (pre : List String) (c : String) (post : List String),
        (∀ x ∈ pre, versionCheckOk (probe x) = false) →
        versionCheckOk (probe c) = true →
        checkNext probe (pre ++ c :: post) = some c ∧
          (checkNextTraced probe (pre ++ c :: post)).2 = pre ++ [c]) := by
  refine ⟨?_, ?_, ?_⟩
  · intro probe
    exact checkNext_eq_find probe pythonCommands
  · intro probe cmds hall
    rw [checkNext_eq_find]
    simp only [List.find?_eq_none]
    intro c hc
    simp [hall c hc]
  · intro probe pre c post hpre hc
    have h := checkNextTraced_stops_at_first probe pre c post hpre hc
    constructor
    · rw [← checkNextTraced_fst, h]
    · rw [h]

/-- Concrete instantiation of `checkPython_first_success`: with a probe under
which `python3` fails (spawn error) and `python` exits 0, `checkPython`
resolves to `python`, and both candidates are probed. -/
theorem checkPython_first_success_witness :
    checkNext
        (fun c => if c = "python" then SpawnOutcome.exited 0 "Python 3.11.0"
                  else SpawnOutcome.spawnError "ENOENT")
        (["python3"] ++ "python" :: []) = some "python" ∧
      (checkNextTraced
        (fun c => if c = "python" then SpawnOutcome.exited 0 "Python 3.11.0"
                  else SpawnOutcome.spawnError "ENOENT")
        (["python3"] ++ "python" :: [])).2 = ["python3"] ++ ["python"] :=
  checkPython_first_success.2.2
    (fun c => if c = "python" then SpawnOutcome.exited 0 "Python 3.11.0"
              else SpawnOutcome.spawnError "ENOENT")
    ["python3"] "python" []
    (by intro x hx; simp at hx; subst hx; decide)
    (by decide)

/-! ## Substring test (JavaScript `String.prototype.includes`) -/

/-- Whether `needle` occurs at the start of `hay` (on character lists). -/
def charsStartWith : List Char → List Char → Bool
  | _, [] => true
  | [], _ :: _ => false
  | a :: as, b :: bs => a == b && charsStartWith as bs

/-- Whether `needle` occurs contiguously anywhere in `hay` (on character
lists). -/
def charsContain (hay needle : List Char) : Bool :=
  match hay with
  | [] => needle.isEmpty
  | _ :: t => charsStartWith hay needle || charsContain t needle

/-- JavaScript's `hay.includes(needle)`: substring containment. -/
def strIncludes (hay needle : String) : Bool :=
  charsContain hay.data needle.data

/-! ## createVirtualEnv and installPythonDependencies (part_000 lines 64-205) -/

/-- The abstract world the setup functions run against: what the filesystem
checks return and what each spawned subprocess does.  `venvPythonExists` is
the `fs.existsSync(venvPythonPath)` check made after the creation attempt
(line 122); `run cmd args` is the outcome of the pip subprocess spawned with
that command and argument list. -/
structure SetupEnv where
  requirementsExists : Bool
  venvExists : Bool
  venvCreateOutcome : SpawnOutcome
  venvPythonExists : Bool
  win32 : Bool
  run : String → List String → SpawnOutcome

/-- `path.join(packageDir, 'requirements.txt')` (line 105). -/
def requirementsPath : String := pathJoin packageDir "requirements.txt"

/-- `path.join(packageDir, '.venv')` (line 65). -/
def venvPath : String := pathJoin packageDir ".venv"

/-- The platform-specific interpreter path inside the virtual environment
(lines 118-120 and 266-268): `.venv/Scripts/python.exe` on Windows,
`.venv/bin/python3` otherwise. -/
def venvPythonPath (win32 : Bool) : String :=
  if win32 then pathJoin (pathJoin venvPath "Scripts") "python.exe"
  else pathJoin (pathJoin venvPath "bin") "python3"

/-- Result of `createVirtualEnv`: the boolean the source resolves with,
whether the `python -m venv .venv` subprocess was spawned at all, and the
`printStatus` output as (message, type) pairs in order. -/
structure CreateVenvResult where
  ok : Bool
  attempted : Bool
  log : List (String × String)
deriving DecidableEq, Repr

/-- `createVirtualEnv` (lines 64-100).  When `.venv` already exists it reports
success and returns `true` without spawning anything; otherwise it spawns
`pythonCmd -m venv .venv` and resolves `true` on exit code 0, `false` on a
non-zero exit or spawn error (the rejection is caught and logged as an
error, line 96-99). -/
def createVirtualEnv (e : SetupEnv) (_pythonCmd : String) : CreateVenvResult :=
  if e.venvExists then
    { ok := true, attempted := false,
      log := [("Virtual environment already exists", "success")] }
  else
    match e.venvCreateOutcome with
    | .exited code _ =>
      if code = 0 then
        { ok := true, attempted := true,
          log := [("Creating virtual environment...", "info"),
                  ("Virtual environment created successfully!", "success")] }
      else
        { ok := false, attempted := true,
          log := [("Creating virtual environment...", "info"),
                  ("Failed to create virtual environment: "
                     ++ ("Failed to create virtual environment: " ++ toString code),
                   "error")] }
    | .spawnError msg =>
      { ok := false, attempted := true,
        log := [("Creating virtual environment...", "info"),
                ("Failed to create virtual environment: " ++ msg, "error")] }

/-- One entry of the `installMethods` array (lines 128-153). -/
structure InstallMethod where
  name : String
  cmd : String
  args : List String
deriving DecidableEq, Repr

/-- The `installMethods` array (lines 128-153), parameterised as in the source
by `finalPythonCmd` (method 1) and the ambient `pythonCmd` (methods 2-4). -/
def installMethods (finalPythonCmd pythonCmd : String) : List InstallMethod :=
  [ { name := "virtual environment",
      cmd := finalPythonCmd,
      args := ["-m", "pip", "install", "-r", requirementsPath] },
    { name := "user install with break-system-packages",
      cmd := pythonCmd,
      args := ["-m", "pip", "install", "--user", "--break-system-packages",
               "-r", requirementsPath] },
    { name := "user install",
      cmd := pythonCmd,
      args := ["-m", "pip", "install", "--user", "-r", requirementsPath] },
    { name := "system install with break-system-packages",
      cmd := pythonCmd,
      args := ["-m", "pip", "install", "--break-system-packages",
               "-r", requirementsPath] } ]

/-- The stderr test of line 177: `stderr.includes('already satisfied') ||
stderr.includes('Requirement already satisfied')`. -/
def hasSatisfiedMarker (stderr : String) : Bool :=
  strIncludes stderr "already satisfied" || strIncludes stderr "Requirement already satisfied"

/-- The close-handler condition of line 177: an attempt resolves (counts as a
success) when the process exits 0 or its stderr contains an already-satisfied
marker; a non-zero exit without the marker, or a spawn error (line 185-187),
rejects and the attempt counts as failed. -/
def attemptSucceeds : SpawnOutcome → Bool
  | .exited code stderr => code == 0 || hasSatisfiedMarker stderr
  | .spawnError _ => false

/-- The value `installPythonDependencies` effectively returns: whether it
skipped because `requirements.txt` was missing, which method succeeded, or
that every method failed. -/
inductive InstallResult where
  | skippedNoRequirements
  | installedWith (methodName : String)
  | allMethodsFailed
deriving DecidableEq, Repr

/-- The error message carried by the rejection of a failed attempt: on a
non-zero close it is the `new Error` message of line 181; on a spawn error it
is the spawn error's own message. -/
def attemptFailMessage (m : InstallMethod) : SpawnOutcome → String
  | .exited _ stderr => m.name ++ " failed: " ++ stderr
  | .spawnError msg => msg

/-- Result of the `for (const method of installMethods)` loop (lines 155-205)
together with its observable trace: how many methods were attempted (spawned)
and the `printStatus` output in order.  The log of the empty case is the
exhaustion block after the loop (lines 199-204). -/
structure TryResult where
  result : InstallResult
  attempts : Nat
  log : List (String × String)
deriving DecidableEq, Repr

/-- The install loop (lines 155-205): attempt each method in order; on the
first success print the success message and return; on failure print a
warning and continue; after exhausting the list print the manual-install
guidance and the final warning, and return normally. -/
def tryMethods (run : String → List String → SpawnOutcome) :
    List InstallMethod → TryResult
  | [] =>
    { result := .allMethodsFailed, attempts := 0,
      log := [("Could not install dependencies automatically.", "error"),
              ("Please install manually with one of these commands:", "info"),
              ("  python3 -m venv .venv && source .venv/bin/activate && pip install -r requirements.txt", "info"),
              ("  pip3 install --user --break-system-packages -r requirements.txt", "info"),
              ("Continuing anyway - some features may not work.", "warning")] }
  | m :: rest =>
    let o := run m.cmd m.args
    if attemptSucceeds o then
      { result := .installedWith m.name, attempts := 1,
        log := [("Trying " ++ m.name ++ "...", "info"),
                ("Dependencies installed successfully using " ++ m.name ++ "!", "success")] }
    else
      let r := tryMethods run rest
      { result := r.result, attempts := r.attempts + 1,
        log := ("Trying " ++ m.name ++ "...", "info")
                 :: (m.name ++ " failed: " ++ attemptFailMessage m o, "warning")
                 :: r.log }

/-- The interpreter switch of lines 115-126: the venv interpreter is used for
method 1 exactly when `createVirtualEnv` reported success and the
platform-specific venv interpreter binary exists. -/
def usesVenvInterp (e : SetupEnv) (pythonCmd : String) : Bool :=
  (createVirtualEnv e pythonCmd).ok && e.venvPythonExists

/-- The `finalPythonCmd` variable of lines 115-126. -/
def finalInstallCmd (e : SetupEnv) (pythonCmd : String) : String :=
  if usesVenvInterp e pythonCmd then venvPythonPath e.win32 else pythonCmd

/-- Full observable outcome of `installPythonDependencies`. -/
structure InstallOutcome where
  result : InstallResult
  attempts : Nat
  venvCreateAttempted : Bool
  methods : List InstallMethod
  finalPythonCmd : String
  log : List (String × String)

/-- `installPythonDependencies` (lines 102-205).  If `requirements.txt` is
missing it warns and returns at once.  Otherwise it runs `createVirtualEnv`,
switches to the venv interpreter only when creation reported success and the
platform-specific venv interpreter binary exists (lines 115-126), builds the
method list and runs the install loop. -/
def installPythonDependencies (e : SetupEnv) (pythonCmd : String) : InstallOutcome :=
  if e.requirementsExists then
    let cv := createVirtualEnv e pythonCmd
    let fpc := finalInstallCmd e pythonCmd
    let venvUseLog :=
      if usesVenvInterp e pythonCmd then
        [("Using virtual environment for dependency installation", "info")]
      else []
    let ms := installMethods fpc pythonCmd
    let tr := tryMethods e.run ms
    { result := tr.result, attempts := tr.attempts,
      venvCreateAttempted := cv.attempted,
      methods := ms, finalPythonCmd := fpc,
      log := ("Installing Python dependencies...", "info")
               :: (cv.log ++ venvUseLog ++ tr.log) }
  else
    { result := .skippedNoRequirements, attempts := 0,
      venvCreateAttempted := false,
      methods := [], finalPythonCmd := pythonCmd,
      log := [("Installing Python dependencies...", "info"),
              ("No requirements.txt found, skipping dependency installation", "warning")] }

/-! ## Lemmas about the install loop -/

theorem tryMethods_success_at (run : String → List String → SpawnOutcome) :
    ∀ (ms : List InstallMethod) (k : Nat) (m : InstallMethod),
      ms.get? k = some m →
      attemptSucceeds (run m.cmd m.args) = true →
      (∃ nm, (tryMethods run ms).result = InstallResult.installedWith nm) ∧
        (tryMethods run ms).attempts ≤ k + 1 := by
  intro ms
  induction ms with
  | nil => intro k m h _; simp at h
  | cons m0 rest ih =>
    intro k m hget hsucc
    by_cases h0 : attemptSucceeds (run m0.cmd m0.args) = true
    · refine ⟨⟨m0.name, ?_⟩, ?_⟩
      · simp [tryMethods, h0]
      · simp [tryMethods, h0]
    · have h0f : attemptSucceeds (run m0.cmd m0.args) = false := by
        simpa using h0
      cases k with
      | zero =>
        simp at hget
        subst hget
        exact absurd hsucc h0
      | succ j =>
        rw [List.get?_cons_succ] at hget
        obtain ⟨⟨nm, hnm⟩, ha⟩ := ih j m hget hsucc
        refine ⟨⟨nm, ?_⟩, ?_⟩
        · simp [tryMethods, h0f, hnm]
        · simp [tryMethods, h0f]
          omega

theorem tryMethods_all_fail (run : String → List String → SpawnOutcome) :
    ∀ ms : List InstallMethod,
      (∀ m ∈ ms, attemptSucceeds (run m.cmd m.args) = false) →
      (tryMethods run ms).result = InstallResult.allMethodsFailed ∧
        ("Continuing anyway - some features may not work.", "warning")
          ∈ (tryMethods run ms).log := by
  intro ms
  induction ms with
  | nil =>
    intro _
    refine ⟨rfl, ?_⟩
    simp [tryMethods]
  | cons m0 rest ih =>
    intro hall
    have h0 : attemptSucceeds (run m0.cmd m0.args) = false := hall m0 (by simp)
    have hr := ih (fun m hm => hall m (by simp [hm]))
    refine ⟨?_, ?_⟩
    · simp [tryMethods, h0, hr.1]
    · simp only [tryMethods, h0, Bool.false_eq_true, if_false]
      exact List.mem_cons_of_mem _ (List.mem_cons_of_mem _ hr.2)

theorem tryMethods_attempts_pos (run : String → List String → SpawnOutcome)
    (m : InstallMethod) (rest : List InstallMethod) :
    1 ≤ (tryMethods run (m :: rest)).attempts := by
  by_cases h : attemptSucceeds (run m.cmd m.args) = true
  · simp [tryMethods, h]
  · have hf : attemptSucceeds (run m.cmd m.args) = false := by simpa using h
    simp [tryMethods, hf]

theorem installPythonDependencies_fields (e : SetupEnv) (p : String)
    (hreq : e.requirementsExists = true) :
    (installPythonDependencies e p).methods = installMethods (finalInstallCmd e p) p ∧
    (installPythonDependencies e p).result =
      (tryMethods e.run (installMethods (finalInstallCmd e p) p)).result ∧
    (installPythonDependencies e p).attempts =
      (tryMethods e.run (installMethods (finalInstallCmd e p) p)).attempts ∧
    (installPythonDependencies e p).venvCreateAttempted = (createVirtualEnv e p).attempted ∧
    (installPythonDependencies e p).finalPythonCmd = finalInstallCmd e p ∧
    (installPythonDependencies e p).log =
      ("Installing Python dependencies...", "info")
        :: ((createVirtualEnv e p).log
              ++ (if usesVenvInterp e p then
                    [("Using virtual environment for dependency installation", "info")]
                  else [])
              ++ (tryMethods e.run (installMethods (finalInstallCmd e p) p)).log) := by
  refine ⟨?_, ?_, ?_, ?_, ?_, ?_⟩ <;> simp [installPythonDependencies, hreq]

/-- C1: given the fixed four-strategy priority list built by
`installPythonDependencies`, whenever strategy `k` fails and strategy `k + 1`
succeeds under the subprocess environment, the function reports success (its
result is `installedWith` some method name) and at most `k + 2` strategies are
ever attempted, so strategy `k + 2` is never spawned. -/
theorem install_cascade_stops_after_success (e : SetupEnv) (p : String)
    (k : Nat) (ma mb : InstallMethod)
    (hreq : e.requirementsExists = true)
    (hget : (installPythonDependencies e p).methods.get? k = some ma)
    (hget1 : (installPythonDependencies e p).methods.get? (k + 1) = some mb)
    (hfail : attemptSucceeds (e.run ma.cmd ma.args) = false)
    (hsucc : attemptSucceeds (e.run mb.cmd mb.args) = true) :
    (∃ nm, (installPythonDependencies e p).result = InstallResult.installedWith nm) ∧
      (installPythonDependencies e p).attempts ≤ k + 2 := by
  obtain ⟨hm, hres, hatt, -, -, -⟩ := installPythonDependencies_fields e p hreq
  rw [hm] at hget1
  rw [hres, hatt]
  exact tryMethods_success_at e.run (installMethods (finalInstallCmd e p) p)
    (k + 1) mb hget1 hsucc

/-- Environment for the cascade witness: the venv already exists but its
interpreter binary does not, the plain install (method 1) exits 1, and any
`--user` install exits 0. -/
def cascadeEnvW : SetupEnv :=
  { requirementsExists := true, venvExists := true,
    venvCreateOutcome := SpawnOutcome.exited 0 "", venvPythonExists := false,
    win32 := false,
    run := fun _ args =>
      if args.contains "--user" then SpawnOutcome.exited 0 ""
      else SpawnOutcome.exited 1 "permission denied" }

/-- Concrete instantiation of `install_cascade_stops_after_success` at `k = 0`:
strategy 0 fails, strategy 1 succeeds, so installation succeeds after at most
two attempts. -/
theorem install_cascade_stops_after_success_witness :
    (∃ nm, (installPythonDependencies cascadeEnvW "python3").result
        = InstallResult.installedWith nm) ∧
      (installPythonDependencies cascadeEnvW "python3").attempts ≤ 0 + 2 :=
  install_cascade_stops_after_success cascadeEnvW "python3" 0
    { name := "virtual environment", cmd := "python3",
      args := ["-m", "pip", "install", "-r", requirementsPath] }
    { name := "user install with break-system-packages", cmd := "python3",
      args := ["-m", "pip", "install", "--user", "--break-system-packages",
               "-r", requirementsPath] }
    rfl (by decide) (by decide) (by decide) (by decide)

/-- C2: an install attempt whose process exits counts as failed exactly when
the exit code is non-zero and the collected stderr does not contain an
already-satisfied marker; a failed attempt makes the loop continue with the
remaining strategies; and when every strategy of the built method list fails,
`installPythonDependencies` still returns normally with result
`allMethodsFailed` and the final "Continuing anyway" warning in its output —
it does not halt the process. -/
theorem attempt_failure_semantics :
    (∀ (code : Int) (stderr : String),
        attemptSucceeds (SpawnOutcome.exited code stderr) = false ↔
          (code ≠ 0 ∧ hasSatisfiedMarker stderr = false)) ∧
    (∀ (run : String → List String → SpawnOutcome) (m : InstallMethod)
        (rest : List InstallMethod),
        attemptSucceeds (run m.cmd m.args) = false →
          (tryMethods run (m :: rest)).result = (tryMethods run rest).result) ∧
    (∀ (e : SetupEnv) (p : String),
        e.requirementsExists = true →
        (∀ m ∈ (installPythonDependencies e p).methods,
            attemptSucceeds (e.run m.cmd m.args) = false) →
        (installPythonDependencies e p).result = InstallResult.allMethodsFailed ∧
          ("Continuing anyway - some features may not work.", "warning")
            ∈ (installPythonDependencies e p).log) := by
  refine ⟨?_, ?_, ?_⟩
  · intro code stderr
    simp [attemptSucceeds, Bool.or_eq_false_iff]
  · intro run m rest h
    simp [tryMethods, h]
  · intro e p hreq hall
    obtain ⟨hm, hres, -, -, -, hlog⟩ := installPythonDependencies_fields e p hreq
    rw [hm] at hall
    have h2 := tryMethods_all_fail e.run (installMethods (finalInstallCmd e p) p) hall
    refine ⟨by rw [hres]; exact h2.1, ?_⟩
    rw [hlog]
    exact List.mem_cons_of_mem _ (List.mem_append_right _ h2.2)

/-- Environment for the all-strategies-fail witness: no venv, venv creation
exits 1, and every pip install exits 1 with an unrelated stderr message. -/
def allFailEnvW : SetupEnv :=
  { requirementsExists := true, venvExists := false,
    venvCreateOutcome := SpawnOutcome.exited 1 "", venvPythonExists := false,
    win32 := false,
    run := fun _ _ => SpawnOutcome.exited 1 "error: externally-managed-environment" }

/-- Concrete instantiation of `attempt_failure_semantics`: a non-zero exit
with unrelated stderr is a failed attempt, and with every strategy failing the
function returns `allMethodsFailed` with the final warning. -/
theorem attempt_failure_semantics_witness :
    attemptSucceeds (SpawnOutcome.exited 1 "some pip error") = false ∧
    (installPythonDependencies allFailEnvW "python3").result
        = InstallResult.allMethodsFailed ∧
    ("Continuing anyway - some features may not work.", "warning")
      ∈ (installPythonDependencies allFailEnvW "python3").log :=
  ⟨(attempt_failure_semantics.1 1 "some pip error").mpr ⟨by decide, by decide⟩,
   (attempt_failure_semantics.2.2 allFailEnvW "python3" rfl (by decide)).1,
   (attempt_failure_semantics.2.2 allFailEnvW "python3" rfl (by decide)).2⟩

/-- C4: when the `.venv` directory already exists under the package directory,
`createVirtualEnv` spawns nothing, reports "Virtual environment already
exists" as a success, and returns `true` — creation is idempotent. -/
theorem createVirtualEnv_idempotent (e : SetupEnv) (p : String)
    (h : e.venvExists = true) :
    createVirtualEnv e p =
      { ok := true, attempted := false,
        log := [("Virtual environment already exists", "success")] } := by
  simp [createVirtualEnv, h]

/-- Environment for the idempotence witness: the venv directory exists. -/
def venvExistsEnvW : SetupEnv :=
  { requirementsExists := true, venvExists := true,
    venvCreateOutcome := SpawnOutcome.exited 0 "", venvPythonExists := true,
    win32 := false, run := fun _ _ => SpawnOutcome.exited 0 "" }

/-- Concrete instantiation of `createVirtualEnv_idempotent`. -/
theorem createVirtualEnv_idempotent_witness :
    createVirtualEnv venvExistsEnvW "python3" =
      { ok := true, attempted := false,
        log := [("Virtual environment already exists", "success")] } :=
  createVirtualEnv_idempotent venvExistsEnvW "python3" rfl

/-- C5: when virtual-environment creation fails, the flow is not aborted: the
failure is logged as an error, the final interpreter stays the ambient
`pythonCmd`, every strategy in the built method list uses the ambient
interpreter, and at least one install strategy is still attempted. -/
theorem venv_failure_falls_back_to_ambient (e : SetupEnv) (p : String)
    (hreq : e.requirementsExists = true)
    (hfail : (createVirtualEnv e p).ok = false) :
    (installPythonDependencies e p).finalPythonCmd = p ∧
    (∀ m ∈ (installPythonDependencies e p).methods, m.cmd = p) ∧
    1 ≤ (installPythonDependencies e p).attempts ∧
    (∃ s, ("Failed to create virtual environment: " ++ s, "error")
        ∈ (installPythonDependencies e p).log) := by
  obtain ⟨hm, -, hatt, -, hfpc, hlog⟩ := installPythonDependencies_fields e p hreq
  have huse : usesVenvInterp e p = false := by simp [usesVenvInterp, hfail]
  have hcmd : finalInstallCmd e p = p := by simp [finalInstallCmd, huse]
  refine ⟨by rw [hfpc, hcmd], ?_, ?_, ?_⟩
  · rw [hm, hcmd]
    intro m hmem
    simp [installMethods] at hmem
    rcases hmem with rfl | rfl | rfl | rfl <;> rfl
  · rw [hatt, hcmd]
    exact tryMethods_attempts_pos e.run _ _
  · have hcv : ∃ s, ("Failed to create virtual environment: " ++ s, "error")
        ∈ (createVirtualEnv e p).log := by
      by_cases hv : e.venvExists = true
      · rw [createVirtualEnv_idempotent e p hv] at hfail
        simp at hfail
      · have hvf : e.venvExists = false := by simpa using hv
        cases hco : e.venvCreateOutcome with
        | exited code stderr =>
          by_cases hc0 : code = 0
          · subst hc0
            simp [createVirtualEnv, hvf, hco] at hfail
          · refine ⟨"Failed to create virtual environment: " ++ toString code, ?_⟩
            simp [createVirtualEnv, hvf, hco, hc0]
        | spawnError msg =>
          refine ⟨msg, ?_⟩
          simp [createVirtualEnv, hvf, hco]
    obtain ⟨s, hs⟩ := hcv
    refine ⟨s, ?_⟩
    rw [hlog]
    exact List.mem_cons_of_mem _ (List.mem_append_left _ (List.mem_append_left _ hs))

/-- Concrete instantiation of `venv_failure_falls_back_to_ambient`: venv
creation exits 1, so every strategy uses the ambient interpreter and the
creation failure is logged. -/
theorem venv_failure_falls_back_to_ambient_witness :
    (installPythonDependencies allFailEnvW "python3").finalPythonCmd = "python3" ∧
    (∀ m ∈ (installPythonDependencies allFailEnvW "python3").methods, m.cmd = "python3") ∧
    1 ≤ (installPythonDependencies allFailEnvW "python3").attempts ∧
    (∃ s, ("Failed to create virtual environment: " ++ s, "error")
        ∈ (installPythonDependencies allFailEnvW "python3").log) :=
  venv_failure_falls_back_to_ambient allFailEnvW "python3" rfl (by decide)

/-- C9: without a `requirements.txt` in the package directory,
`installPythonDependencies` returns at once with result
`skippedNoRequirements`: the venv-creation process is never spawned, no
install strategy is attempted, and the only diagnostic about it is a warning
(nothing of type error is printed), so setup carries on. -/
theorem no_requirements_skips_everything (e : SetupEnv) (p : String)
    (h : e.requirementsExists = false) :
    (installPythonDependencies e p).result = InstallResult.skippedNoRequirements ∧
    (installPythonDependencies e p).attempts = 0 ∧
    (installPythonDependencies e p).venvCreateAttempted = false ∧
    (installPythonDependencies e p).log =
      [("Installing Python dependencies...", "info"),
       ("No requirements.txt found, skipping dependency installation", "warning")] ∧
    ∀ msg, (msg, "error") ∉ (installPythonDependencies e p).log := by
  refine ⟨?_, ?_, ?_, ?_, ?_⟩ <;> simp [installPythonDependencies, h]

/-- Environment for the missing-requirements witness. -/
def noReqEnvW : SetupEnv :=
  { requirementsExists := false, venvExists := false,
    venvCreateOutcome := SpawnOutcome.exited 0 "", venvPythonExists := false,
    win32 := false, run := fun _ _ => SpawnOutcome.exited 0 "" }

/-- Concrete instantiation of `no_requirements_skips_everything`. -/
theorem no_requirements_skips_everything_witness :
    (installPythonDependencies noReqEnvW "python3").result
        = InstallResult.skippedNoRequirements ∧
    (installPythonDependencies noReqEnvW "python3").attempts = 0 ∧
    (installPythonDependencies noReqEnvW "python3").venvCreateAttempted = false ∧
    (installPythonDependencies noReqEnvW "python3").log =
      [("Installing Python dependencies...", "info"),
       ("No requirements.txt found, skipping dependency installation", "warning")] ∧
    ∀ msg, (msg, "error") ∉ (installPythonDependencies noReqEnvW "python3").log :=
  no_requirements_skips_everything noReqEnvW "python3" rfl

/-- C10: the first install strategy is always named "virtual environment" and
runs a plain (no `--user`, no `--break-system-packages`) pip install with the
computed final interpreter; that interpreter is the venv one only when venv
creation reported success and the platform-specific binary
(`.venv/Scripts/python.exe` on Windows, `.venv/bin/python3` otherwise) exists
— if the binary is absent, or creation failed, the first strategy silently
degrades to the ambient interpreter. -/
theorem first_strategy_uses_venv_only_if_binary (e : SetupEnv) (p : String)
    (hreq : e.requirementsExists = true) :
    (installPythonDependencies e p).methods.get? 0 =
      some { name := "virtual environment",
             cmd := (installPythonDependencies e p).finalPythonCmd,
             args := ["-m", "pip", "install", "-r", requirementsPath] } ∧
    (e.venvPythonExists = false → (installPythonDependencies e p).finalPythonCmd = p) ∧
    ((createVirtualEnv e p).ok = false →
        (installPythonDependencies e p).finalPythonCmd = p) ∧
    ((createVirtualEnv e p).ok = true → e.venvPythonExists = true →
        (installPythonDependencies e p).finalPythonCmd = venvPythonPath e.win32) ∧
    venvPythonPath true = "/pkg/.venv/Scripts/python.exe" ∧
    venvPythonPath false = "/pkg/.venv/bin/python3" := by
  obtain ⟨hm, -, -, -, hfpc, -⟩ := installPythonDependencies_fields e p hreq
  refine ⟨?_, ?_, ?_, ?_, by decide, by decide⟩
  · rw [hm, hfpc]
    rfl
  · intro h
    rw [hfpc]
    simp [finalInstallCmd, usesVenvInterp, h]
  · intro h
    rw [hfpc]
    simp [finalInstallCmd, usesVenvInterp, h]
  · intro h1 h2
    rw [hfpc]
    simp [finalInstallCmd, usesVenvInterp, h1, h2]

/-- Concrete instantiation of `first_strategy_uses_venv_only_if_binary`: in an
environment where the venv interpreter binary is absent, the first strategy is
the plain install with the ambient interpreter. -/
theorem first_strategy_uses_venv_only_if_binary_witness :
    (installPythonDependencies allFailEnvW "python3").methods.get? 0 =
      some { name := "virtual environment",
             cmd := (installPythonDependencies allFailEnvW "python3").finalPythonCmd,
             args := ["-m", "pip", "install", "-r", requirementsPath] } ∧
    (installPythonDependencies allFailEnvW "python3").finalPythonCmd = "python3" :=
  ⟨(first_strategy_uses_venv_only_if_binary allFailEnvW "python3" rfl).1,
   (first_strategy_uses_venv_only_if_binary allFailEnvW "python3" rfl).2.1 rfl⟩

/-! ## The launcher's signal handling (part_000 lines 283-308)

`runServer` spawns the server child and registers SIGINT/SIGTERM handlers
that forward the signal to the child (lines 300-308) without calling
`process.exit`.  A Node.js process exits on its own only once its event loop
holds no more work; the live child-process handle keeps the loop alive, so the
parent can drain only after the child's `close` event.  We model this as a
small transition system: `sigterm` runs the registered handler, `childExit`
is the child's `close` event, and `loopDrain` is Node's natural exit, enabled
only when no child is running. -/

/-- State of the launcher and its child. -/
structure LaunchState where
  childRunning : Bool
  childGotSigterm : Bool
  parentExited : Bool
deriving DecidableEq, Repr

/-- Events the launcher reacts to. -/
inductive LaunchEvent where
  | sigterm
  | childExit
  | loopDrain
deriving DecidableEq, Repr

/-- Initial state right after `spawn`: the child runs, no signal seen. -/
def launchInit : LaunchState :=
  { childRunning := true, childGotSigterm := false, parentExited := false }

/-- One step of the launcher.  The `sigterm` case is the handler of lines
305-308: it sends SIGTERM to the child (delivered only if the child still
runs) and does not exit the parent.  `childExit` marks the child gone.
`loopDrain` exits the parent and, per Node's event-loop semantics, is a no-op
while the child handle is alive.  An exited parent takes no further steps. -/
def launcherStep (s : LaunchState) : LaunchEvent → LaunchState
  | .sigterm =>
    if s.parentExited then s
    else if s.childRunning then { s with childGotSigterm := true }
    else s
  | .childExit =>
    if s.parentExited then s else { s with childRunning := false }
  | .loopDrain =>
    if s.parentExited then s
    else if s.childRunning then s
    else { s with parentExited := true }

/-- Run a sequence of events from a state. -/
def runEvents (s : LaunchState) (evs : List LaunchEvent) : LaunchState :=
  evs.foldl launcherStep s

theorem launcherStep_preserves_orphan_free (s : LaunchState) (ev : LaunchEvent)
    (h : s.parentExited = true → s.childRunning = false) :
    (launcherStep s ev).parentExited = true → (launcherStep s ev).childRunning = false := by
  cases ev <;> simp only [launcherStep] <;> split <;> try split
  all_goals simp_all

theorem runEvents_preserves_orphan_free (evs : List LaunchEvent) :
    ∀ s : LaunchState, (s.parentExited = true → s.childRunning = false) →
      (runEvents s evs).parentExited = true → (runEvents s evs).childRunning = false := by
  induction evs with
  | nil => intro s h; exact h
  | cons ev rest ih =>
    intro s h
    exact ih (launcherStep s ev) (launcherStep_preserves_orphan_free s ev h)

theorem launcherStep_keeps_sigterm (s : LaunchState) (ev : LaunchEvent)
    (h : s.childGotSigterm = true) :
    (launcherStep s ev).childGotSigterm = true := by
  cases ev <;> simp only [launcherStep] <;> split <;> try split
  all_goals simp_all

theorem runEvents_keep_sigterm (evs : List LaunchEvent) :
    ∀ s : LaunchState, s.childGotSigterm = true →
      (runEvents s evs).childGotSigterm = true := by
  induction evs with
  | nil => intro s h; exact h
  | cons ev rest ih =>
    intro s h
    exact ih (launcherStep s ev) (launcherStep_keeps_sigterm s ev h)

/-- C6: in any run that starts from the spawn state, if SIGTERM arrives while
the child is running, the registered handler delivers SIGTERM to the child
(and that fact persists for the rest of the run), and at every later point the
parent can only have exited after the child did: whenever `parentExited`
holds, `childRunning` does not — the child is never orphaned by the parent
exiting first. -/
theorem sigterm_forwarded_and_parent_exits_last (pre evs : List LaunchEvent)
    (h : (runEvents launchInit pre).childRunning = true) :
    (launcherStep (runEvents launchInit pre) LaunchEvent.sigterm).childGotSigterm = true ∧
    (runEvents (launcherStep (runEvents launchInit pre) LaunchEvent.sigterm)
        evs).childGotSigterm = true ∧
    ((runEvents (launcherStep (runEvents launchInit pre) LaunchEvent.sigterm)
          evs).parentExited = true →
      (runEvents (launcherStep (runEvents launchInit pre) LaunchEvent.sigterm)
          evs).childRunning = false) := by
  have hinv : (runEvents launchInit pre).parentExited = true →
      (runEvents launchInit pre).childRunning = false :=
    runEvents_preserves_orphan_free pre launchInit (by intro hc; cases hc) 
  have hnp : (runEvents launchInit pre).parentExited = false := by
    by_cases hp : (runEvents launchInit pre).parentExited = true
    · rw [hinv hp] at h
      cases h
    · simpa using hp
  have hstep : (launcherStep (runEvents launchInit pre) LaunchEvent.sigterm).childGotSigterm
      = true := by
    simp [launcherStep, hnp, h]
  refine ⟨hstep, runEvents_keep_sigterm evs _ hstep, ?_⟩
  apply runEvents_preserves_orphan_free
  apply launcherStep_preserves_orphan_free
  exact hinv

/-- Concrete instantiation of `sigterm_forwarded_and_parent_exits_last`:
SIGTERM right after spawn, then the child exits and the loop drains; the child
got the signal and the parent exits only with the child gone. -/
theorem sigterm_forwarded_and_parent_exits_last_witness :
    (launcherStep (runEvents launchInit []) LaunchEvent.sigterm).childGotSigterm = true ∧
    (runEvents (launcherStep (runEvents launchInit []) LaunchEvent.sigterm)
        [LaunchEvent.childExit, LaunchEvent.loopDrain]).childGotSigterm = true ∧
    ((runEvents (launcherStep (runEvents launchInit []) LaunchEvent.sigterm)
          [LaunchEvent.childExit, LaunchEvent.loopDrain]).parentExited = true →
      (runEvents (launcherStep (runEvents launchInit []) LaunchEvent.sigterm)
          [LaunchEvent.childExit, LaunchEvent.loopDrain]).childRunning = false) :=
  sigterm_forwarded_and_parent_exits_last []
    [LaunchEvent.childExit, LaunchEvent.loopDrain] rfl

/-! ## runServer's interpreter choice, environment, and exit reporting
(part_000 lines 258-297, src/bin/setup.js lines 16-23) -/

/-- The interpreter `runServer` spawns (lines 264-270): the venv interpreter
when its platform-specific binary exists, else the bootstrapped `pythonCmd`. -/
def runServerPythonCmd (venvPythonExists win32 : Bool) (pythonCmd : String) : String :=
  if venvPythonExists then venvPythonPath win32 else pythonCmd

/-- The child environment built for the server (lines 276-281): a spread of
the parent environment, then `PYTHONPATH` set to the package directory and
`PYTHONUSERBASE` set to the parent's value when truthy (JavaScript `||`
treats the empty string as falsy) and to `homedir/.local` otherwise.
Environments are maps from variable name to optional value. -/
def childEnv (parentEnv : String → Option String) (homedir : String) :
    String → Option String :=
  fun k =>
    if k = "PYTHONPATH" then some packageDir
    else if k = "PYTHONUSERBASE" then
      some (match parentEnv "PYTHONUSERBASE" with
            | some v => if v = "" then pathJoin homedir ".local" else v
            | none => pathJoin homedir ".local")
    else parentEnv k

/-- C8: `runServer` prefers the isolated environment's interpreter exactly
when its binary exists (else the bootstrapped one), and the child's
environment is the parent's with exactly two variables injected —
`PYTHONPATH` is set to the package root and `PYTHONUSERBASE` is always
present — while every other variable passes through unchanged. -/
theorem runServer_env_frame :
    (∀ (win32 : Bool) (p : String),
        runServerPythonCmd true win32 p = venvPythonPath win32 ∧
        runServerPythonCmd false win32 p = p) ∧
    (∀ (parentEnv : String → Option String) (homedir : String),
        childEnv parentEnv homedir "PYTHONPATH" = some packageDir ∧
        (childEnv parentEnv homedir "PYTHONUSERBASE").isSome = true ∧
        (∀ k, k ≠ "PYTHONPATH" → k ≠ "PYTHONUSERBASE" →
            childEnv parentEnv homedir k = parentEnv k)) := by
  refine ⟨?_, ?_⟩
  · intro w p
    exact ⟨by simp [runServerPythonCmd], by simp [runServerPythonCmd]⟩
  · intro pe h
    refine ⟨by simp [childEnv], by simp [childEnv], ?_⟩
    intro k h1 h2
    simp [childEnv, h1, h2]

/-- A sample parent environment for the frame witness. -/
def parentEnvW : String → Option String := fun k =>
  if k = "HOME" then some "/home/user" else none

/-- Concrete instantiation of `runServer_env_frame`: without a venv binary the
ambient interpreter is used, `PYTHONPATH` is injected, and `HOME` passes
through unchanged. -/
theorem runServer_env_frame_witness :
    runServerPythonCmd false false "python3" = "python3" ∧
    childEnv parentEnvW "/home/user" "PYTHONPATH" = some packageDir ∧
    childEnv parentEnvW "/home/user" "HOME" = parentEnvW "HOME" :=
  ⟨(runServer_env_frame.1 false "python3").2,
   (runServer_env_frame.2 parentEnvW "/home/user").1,
   (runServer_env_frame.2 parentEnvW "/home/user").2.2 "HOME" (by decide) (by decide)⟩

/-- Effects of `runServer`'s child `close` handler (lines 289-293), as written
in the source: it may print an error, it could in principle set an exit code
or respawn the child — the fields record what it actually does. -/
structure ChildCloseEffect where
  errorLogged : Bool
  exitCodeSet : Option Int
  restartAttempted : Bool
deriving DecidableEq, Repr

/-- The `close` handler of lines 289-293: prints an error exactly when the
child's exit code is non-zero; it calls neither `process.exit` nor sets
`process.exitCode`, and it does not respawn the child. -/
def runServerOnClose (code : Int) : ChildCloseEffect :=
  { errorLogged := code != 0, exitCodeSet := none, restartAttempted := false }

/-- The launcher's own exit code once the child closed with `childCode` and
the event loop drained: the code set by the handler if any, else Node's
default exit code 0. -/
def launcherExitCode (childCode : Int) : Int :=
  match (runServerOnClose childCode).exitCodeSet with
  | some c => c
  | none => 0

/-- The `close` handler of `src/bin/setup.js` lines 16-18, which — unlike
`runServer` — does call `process.exit(code)`, propagating its subprocess's
exit code. -/
def setupWrapperExitCode (code : Int) : Int := code

/-- C7 counterexample: when the child server process exits with code 1, the
launcher's own exit code is 0, not 1 — `runServer`'s close handler only
prints the error and never transfers the child's exit status to the launcher
process, so the claim that the launcher's exit code reflects the child's is
false. -/
theorem child_exit_code_not_propagated :
    launcherExitCode 1 = 0 ∧ (runServerOnClose 1).errorLogged = true ∧ (0 : Int) ≠ 1 :=
  ⟨rfl, by decide, by decide⟩

/-- C7 (amended): when the child exits non-zero, the launcher prints an
operator-visible error message and never restarts the child, but it does not
adopt the child's exit code — its own exit code stays 0.  Exit-code
propagation exists only in the setup wrapper `src/bin/setup.js`, which exits
with its subprocess's code. -/
theorem child_exit_reported_not_propagated (code : Int) (h : code ≠ 0) :
    (runServerOnClose code).errorLogged = true ∧
    (runServerOnClose code).restartAttempted = false ∧
    launcherExitCode code = 0 ∧
    setupWrapperExitCode code = code := by
  refine ⟨?_, rfl, rfl, rfl⟩
  simp [runServerOnClose, bne_iff_ne, h]

/-- Concrete instantiation of `child_exit_reported_not_propagated` at child
exit code 7. -/
theorem child_exit_reported_not_propagated_witness :
    (runServerOnClose 7).errorLogged = true ∧
    (runServerOnClose 7).restartAttempted = false ∧
    launcherExitCode 7 = 0 ∧
    setupWrapperExitCode 7 = 7 :=
  child_exit_reported_not_propagated 7 (by decide)
